import Mathlib

/-!
Verification of the filter-and-aggregate pipeline of the fashion sales
dashboards (`app.py`, `fashion_dashboard.py`, `dashboard.py`).

The dataset is an ordered sequence of sales records.  Dates are modelled
as integers (day numbers); a date that failed to parse
(`pd.to_datetime(..., errors='coerce')` producing `NaT`) is `none`.
Numeric columns (`Revenue`, `Profit`, `Quantity`) are rationals, with
`none` for values that failed numeric coercion (`NaN`); pandas `.sum()`
skips `NaN`, which is modelled by `Option.getD 0`.  A pandas comparison
against `NaT` is `False`, so a record with a missing date never passes
the date-range filter.
-/

/-- One row of `fashion_dataset.xlsx`, with the columns the dashboards use. -/
structure SalesRecord where
  Order_ID : String
  Customer_ID : String
  Customer_Name : String
  Date : Option Int
  Platform : String
  State : String
  City : String
  Product : String
  SKU : String
  Quantity : Option ℚ
  Revenue : Option ℚ
  Profit : Option ℚ
  Delivery_Status : String
  Payment_Method : Option String
deriving DecidableEq, Repr

/-- Raw sidebar selections, as the Streamlit widgets hand them to the
filtering code of `app.py` / `fashion_dashboard.py`: a date pair plus one
list of chosen values per categorical dimension.  A selection list may
contain the sentinel `"All"`. -/
structure RawFilter where
  start_date : Int
  end_date : Int
  selected_platform : List String
  selected_state : List String
  selected_city : List String
  selected_product : List String
deriving DecidableEq, Repr

/-- The pandas date-range test
`(df['Date'] >= start) & (df['Date'] <= end)`; comparisons against a
missing (`NaT`) date are `False`. -/
def dateInRange (s e : Int) (r : SalesRecord) : Bool :=
  match r.Date with
  | some d => decide (s ≤ d) && decide (d ≤ e)
  | none => false

/-- Models `df[df[col].isin(sel)]`. -/
def filterIsin (proj : SalesRecord → String) (sel : List String) (D : List SalesRecord) :
    List SalesRecord :=
  D.filter (fun r => sel.contains (proj r))

/-- One `if "All" not in selected: df = df[df[col].isin(selected)]` step of
`app.py` / `fashion_dashboard.py`. -/
def applyDim (sel : List String) (proj : SalesRecord → String) (D : List SalesRecord) :
    List SalesRecord :=
  if sel.contains "All" then D else filterIsin proj sel D

/-- The `filtered_data` computation of `app.py` lines 51-66 (identically
`fashion_dashboard.py` lines 53-68): date-range filter, then the four
conditional `isin` filters in source order (platform, state, city,
product). -/
def filtered_data (D : List SalesRecord) (F : RawFilter) : List SalesRecord :=
  applyDim F.selected_product (fun r => r.Product)
    (applyDim F.selected_city (fun r => r.City)
      (applyDim F.selected_state (fun r => r.State)
        (applyDim F.selected_platform (fun r => r.Platform)
          (D.filter (dateInRange F.start_date F.end_date)))))

/-- The claim's per-dimension predicate: the dimension is unrestricted
(selection contains the `"All"` sentinel) or the record's value is a
member of the explicit selection list. -/
def dimOK (sel : List String) (v : String) : Bool :=
  sel.contains "All" || sel.contains v

/-- The claim's conjunctive per-record predicate. -/
def recordPred (F : RawFilter) (r : SalesRecord) : Bool :=
  dateInRange F.start_date F.end_date r &&
    dimOK F.selected_platform r.Platform &&
    dimOK F.selected_state r.State &&
    dimOK F.selected_city r.City &&
    dimOK F.selected_product r.Product

lemma applyDim_filter (sel : List String) (proj : SalesRecord → String)
    (p : SalesRecord → Bool) (D : List SalesRecord) :
    applyDim sel proj (D.filter p) =
      D.filter (fun r => p r && dimOK sel (proj r)) := by
  unfold applyDim filterIsin dimOK
  by_cases h : sel.contains "All"
  · simp only [h, if_pos, Bool.true_or, Bool.and_true]
  · simp only [h, if_neg, Bool.false_or, List.filter_filter]
    apply List.filter_congr
    intro r _
    exact Bool.and_comm _ _

/-- The sequential filters of the source compose into one conjunctive
filter. -/
lemma filtered_data_eq_filter (D : List SalesRecord) (F : RawFilter) :
    filtered_data D F = D.filter (recordPred F) := by
  unfold filtered_data recordPred
  rw [applyDim_filter, applyDim_filter, applyDim_filter, applyDim_filter]

/-- C1: for every dataset and every filter selection, the filtered view is
exactly the ordered subsequence of the dataset consisting of the records
satisfying the conjunctive predicate (date in range, and each categorical
dimension either unrestricted via the `"All"` sentinel or matched by
membership in the explicit selection list); the output is a subsequence of
the input, preserving relative order. -/
theorem filtered_data_spec (D : List SalesRecord) (F : RawFilter) :
    filtered_data D F = D.filter (recordPred F) ∧
      (filtered_data D F).Sublist D := by
  refine ⟨filtered_data_eq_filter D F, ?_⟩
  rw [filtered_data_eq_filter]
  exact List.filter_sublist D

/-! ### KPI reductions -/

/-- pandas `series.sum()` over an optional numeric column: missing values
(`NaN`) are skipped, i.e. contribute 0. -/
def sumOpt (f : SalesRecord → Option ℚ) (v : List SalesRecord) : ℚ :=
  (v.map (fun r => (f r).getD 0)).sum

/-- Models `filtered_data['Revenue'].sum()`. -/
def total_revenue (v : List SalesRecord) : ℚ := sumOpt (fun r => r.Revenue) v

/-- Models `filtered_data['Profit'].sum()`. -/
def total_profit (v : List SalesRecord) : ℚ := sumOpt (fun r => r.Profit) v

/-- Models `filtered_data['Quantity'].sum()`. -/
def total_quantity (v : List SalesRecord) : ℚ := sumOpt (fun r => r.Quantity) v

/-- Models `series.nunique()`: the number of distinct values. -/
def nunique (l : List String) : Nat := l.dedup.length

/-- Models `filtered_data['Order_ID'].nunique()`. -/
def total_orders (v : List SalesRecord) : Nat :=
  nunique (v.map (fun r => r.Order_ID))

/-- Models `filtered_data['Customer_ID'].nunique()`. -/
def unique_customers (v : List SalesRecord) : Nat :=
  nunique (v.map (fun r => r.Customer_ID))

/-- Models `aov = total_revenue / total_orders if total_orders else 0`
(`app.py` line 76, `fashion_dashboard.py` line 77). -/
def aov (v : List SalesRecord) : ℚ :=
  if total_orders v ≠ 0 then total_revenue v / (total_orders v : ℚ) else 0

/-- Models `aov = filtered_df["Revenue"].sum() / max(len(filtered_df),1)`
(`dashboard.py` line 64): divides by the row count, not the distinct
order count. -/
def aov_dashboard (v : List SalesRecord) : ℚ :=
  total_revenue v / ((max v.length 1 : Nat) : ℚ)

/-- The spec's AOV: GMV divided by distinct order count, defined as 0 when
the order count is 0. -/
def aovSpec (v : List SalesRecord) : ℚ :=
  if total_orders v = 0 then 0 else total_revenue v / (total_orders v : ℚ)

/-- Models `app.py` lines 80-82:
`filtered_data[filtered_data['Delivery_Status'].isin(['Return','Cancel'])]['Order_ID'].nunique()`. -/
def return_cancel_orders (v : List SalesRecord) : Nat :=
  nunique ((v.filter
    (fun r => (["Return", "Cancel"] : List String).contains r.Delivery_Status)).map
      (fun r => r.Order_ID))

/-- Models `fashion_dashboard.py` line 81:
`filtered_data['Delivery_Status'].isin(['Cancelled','Returned']).sum()` —
the number of matching rows. -/
def cancel_return_orders (v : List SalesRecord) : Nat :=
  (v.filter
    (fun r => (["Cancelled", "Returned"] : List String).contains r.Delivery_Status)).length

/-- The spec's cancel/return KPI: the number of distinct order identifiers
among the records whose delivery status is in the given cancel/return
status set. -/
def cancelReturnSpec (statusSet : List String) (v : List SalesRecord) : Nat :=
  nunique ((v.filter (fun r => statusSet.contains r.Delivery_Status)).map
    (fun r => r.Order_ID))

/-- A baseline concrete record used to build test inputs. -/
def r00 : SalesRecord :=
  ⟨"O1", "C1", "N1", some 0, "Amazon", "MH", "Mumbai", "Shirt", "S1",
    some 1, some 100, some 10, "Delivered", none⟩

/-- The two-row, one-order view on which the row-count AOV of
`dashboard.py` differs from the claimed distinct-order AOV. -/
def vAov : List SalesRecord :=
  [{ r00 with Revenue := some 100 }, { r00 with SKU := "S2", Revenue := some 100 }]

/-- C3, counterexample: on a view of two rows belonging to one order with
total revenue 200, the `dashboard.py` AOV (`Revenue.sum / max(len,1)`) is
100 while total revenue divided by the distinct order count is 200 — the
repository's `dashboard.py` variant computes AOV by dividing by the
number of rows, contradicting the claim. -/
theorem aov_dashboard_cex :
    aov_dashboard vAov = 100 ∧ aovSpec vAov = 200 ∧
      aov_dashboard vAov ≠ aovSpec vAov := by
  have h1 : total_revenue vAov = 200 := by
    norm_num [total_revenue, sumOpt, vAov, r00]
  have hlen : vAov.length = 2 := by decide
  have h2 : total_orders vAov = 1 := by decide
  have ha : aov_dashboard vAov = 100 := by
    unfold aov_dashboard
    rw [h1, hlen]
    norm_num
  have hb : aovSpec vAov = 200 := by
    unfold aovSpec
    rw [h1, h2]
    norm_num
  exact ⟨ha, hb, by rw [ha, hb]; norm_num⟩

/-- C3, amended: in the `app.py` / `fashion_dashboard.py` variants the AOV
KPI equals total revenue divided by the number of distinct order
identifiers, and equals 0 when that count is 0. -/
theorem aov_spec (v : List SalesRecord) : aov v = aovSpec v := by
  unfold aov aovSpec
  by_cases h : total_orders v = 0 <;> simp [h]

/-- The two-row view in which one order is cancelled twice, separating
row-counting from distinct-order counting. -/
def vCancel : List SalesRecord :=
  [{ r00 with Order_ID := "O9", Delivery_Status := "Cancelled" },
   { r00 with Order_ID := "O9", SKU := "S2", Delivery_Status := "Cancelled" }]

/-- C4, counterexample: one order spanning two cancelled rows contributes
2 to the `fashion_dashboard.py` cancel/return KPI (row counting) but only
1 distinct order lies in the cancel/return set — the claim that the KPI
counts distinct orders fails on that variant. -/
theorem cancel_return_orders_cex :
    cancel_return_orders vCancel = 2 ∧
      cancelReturnSpec ["Cancelled", "Returned"] vCancel = 1 := by
  refine ⟨by decide, by decide⟩

/-- C4, amended: the `app.py` variant's cancel/return KPI counts distinct
order identifiers among the records whose delivery status is in its
cancel/return status set `{"Return","Cancel"}`, exactly as the spec's
distinct-order KPI prescribes. -/
theorem return_cancel_orders_spec (v : List SalesRecord) :
    return_cancel_orders v = cancelReturnSpec ["Return", "Cancel"] v := rfl

/-! ### Empty-view handling -/

/-- The KPI values computed in the non-empty branch of `app.py`. -/
structure KPISet where
  gmv : ℚ
  aovValue : ℚ
  profit : ℚ
  quantity : ℚ
  orders : Nat
  customers : Nat
  returnCancel : Nat
deriving DecidableEq, Repr

/-- The KPI reductions of `app.py` lines 74-85 as one record. -/
def computeKPIs (v : List SalesRecord) : KPISet :=
  ⟨total_revenue v, aov v, total_profit v, total_quantity v,
    total_orders v, unique_customers v, return_cancel_orders v⟩

/-- The `if filtered_data.empty: st.warning(...) else: <KPIs>` structure of
`app.py` lines 69-76 / `fashion_dashboard.py` lines 71-77: an empty view
yields a distinguished no-data condition (`none`), otherwise the KPI set. -/
def appOutput (D : List SalesRecord) (F : RawFilter) : Option KPISet :=
  let fd := filtered_data D F
  if fd.isEmpty then none else some (computeKPIs fd)

/-- C7: the dashboard reports the empty filtered view as a distinguished
"no data for the selected filters" condition (`none`), and exactly then —
a non-empty view always produces a KPI set, so an all-zero KPI set from
real data is never conflated with emptiness; moreover the KPI reductions
applied to an empty view are all zero, with average order value 0 by the
zero-order-count branch rather than a division fault. -/
theorem appOutput_empty_spec (D : List SalesRecord) (F : RawFilter) :
    (appOutput D F = none ↔ filtered_data D F = []) ∧
      computeKPIs [] = ⟨0, 0, 0, 0, 0, 0, 0⟩ := by
  constructor
  · unfold appOutput
    by_cases h : (filtered_data D F).isEmpty
    · simp [h, List.isEmpty_iff.mp h]
    · simp only [h, if_neg, Bool.false_eq_true, not_false_eq_true]
      simp only [List.isEmpty_iff] at h
      simp [h]
  · decide

/-! ### Empty explicit selections (C2) and the full-range filter (C6) -/

/-- The raw filter that selects an empty platform list and `"All"` for the
other dimensions, with a date range covering the date of `r00`. -/
def F2 : RawFilter := ⟨0, 10, [], ["All"], ["All"], ["All"]⟩

/-- C2, counterexample: on the non-empty dataset `[r00]` with the full date
range and every other dimension unrestricted, an empty explicit platform
selection yields an empty filtered view in the `app.py` /
`fashion_dashboard.py` variants — `"All" not in []` holds, so the code
filters with `isin([])`, which matches nothing; the empty selection is
not normalized to "all values". -/
theorem empty_selection_cex :
    filtered_data [r00] F2 = [] ∧ ([r00] : List SalesRecord) ≠ [] := by
  refine ⟨by decide, by decide⟩

/-- Models `multiselect_with_all` of `dashboard.py` lines 34-40: a selection
containing `"All"`, or an empty selection, is rewritten to the full
option list. -/
def multiselect_with_all (options selected : List String) : List String :=
  if selected.contains "All" || selected.isEmpty then options else selected

/-- The single conjunctive filter of `dashboard.py` lines 52-59, applied
to the platform filter list and the three normalized selections. -/
def filtered_df (D : List SalesRecord) (s e : Int)
    (platform_filter selected_state selected_city selected_product : List String) :
    List SalesRecord :=
  D.filter (fun r =>
    dateInRange s e r &&
      platform_filter.contains r.Platform &&
      selected_state.contains r.State &&
      selected_city.contains r.City &&
      selected_product.contains r.Product)

/-- C2, amended: only the `dashboard.py` variant normalizes an empty
explicit selection — `multiselect_with_all` rewrites it to the full
option list, so with the platform filter and date range unrestrictive and
every record drawn from the option lists, empty selections return the
dataset unchanged and never empty a non-empty view; in the `app.py` /
`fashion_dashboard.py` variants an empty selection instead filters by
membership in the empty set and empties the view (see the
counterexample). -/
theorem multiselect_with_all_spec (D : List SalesRecord) (s e : Int)
    (pf stOpts ctOpts prOpts : List String)
    (hne : D ≠ [])
    (hall : ∀ r ∈ D, dateInRange s e r = true ∧
      pf.contains r.Platform = true ∧ stOpts.contains r.State = true ∧
      ctOpts.contains r.City = true ∧ prOpts.contains r.Product = true) :
    multiselect_with_all stOpts [] = stOpts ∧
      filtered_df D s e pf (multiselect_with_all stOpts [])
        (multiselect_with_all ctOpts []) (multiselect_with_all prOpts []) = D ∧
      filtered_df D s e pf (multiselect_with_all stOpts [])
        (multiselect_with_all ctOpts []) (multiselect_with_all prOpts []) ≠ [] := by
  have hms : ∀ opts : List String, multiselect_with_all opts [] = opts := by
    intro opts
    unfold multiselect_with_all
    simp
  have hfd : filtered_df D s e pf (multiselect_with_all stOpts [])
      (multiselect_with_all ctOpts []) (multiselect_with_all prOpts []) = D := by
    rw [hms, hms, hms]
    unfold filtered_df
    rw [List.filter_eq_self]
    intro r hr
    rcases hall r hr with ⟨h1, h2, h3, h4, h5⟩
    simp at h2 h3 h4 h5
    simp [h1, h2, h3, h4, h5]
  exact ⟨hms stOpts, hfd, by rw [hfd]; exact hne⟩

/-- Witness for the amended C2 at a concrete dataset and option lists. -/
theorem multiselect_with_all_spec_witness :
    multiselect_with_all ["MH"] [] = ["MH"] ∧
      filtered_df [r00] 0 10 ["Amazon"] (multiselect_with_all ["MH"] [])
        (multiselect_with_all ["Mumbai"] []) (multiselect_with_all ["Shirt"] []) = [r00] ∧
      filtered_df [r00] 0 10 ["Amazon"] (multiselect_with_all ["MH"] [])
        (multiselect_with_all ["Mumbai"] []) (multiselect_with_all ["Shirt"] []) ≠ [] :=
  multiselect_with_all_spec [r00] 0 10 ["Amazon"] ["MH"] ["Mumbai"] ["Shirt"]
    (by decide) (by decide)

/-- A record whose date failed to parse (`NaT`). -/
def rNoDate : SalesRecord := { r00 with Order_ID := "O2", Date := none }

/-- A dataset with one dated record and one record with a missing date;
its minimum and maximum present dates are both 0. -/
def D6 : List SalesRecord := [r00, rNoDate]

/-- The all-values filter over the full present-date range of `D6`. -/
def F6 : RawFilter := ⟨0, 0, ["All"], ["All"], ["All"], ["All"]⟩

/-- C6, counterexample: with `"All"` on every dimension and the date range
spanning the minimum to the maximum (present) date of the dataset, the
filtered view drops the record whose date failed to parse — a pandas
comparison against `NaT` is `False` — so the result is `[r00]`, not the
whole dataset `[r00, rNoDate]`. -/
theorem full_range_cex :
    filtered_data D6 F6 = [r00] ∧ D6 ≠ [r00] := by
  refine ⟨by decide, by decide⟩

/-- C6, amended: applying the filter with `"All"` on every categorical
dimension and a date range `[s, e]` returns exactly the dataset whenever
every record's date is present and lies in `[s, e]`; records whose date
failed to parse and is missing are dropped by the date comparison, not
kept. -/
theorem full_range_identity (D : List SalesRecord) (s e : Int)
    (hdates : ∀ r ∈ D, dateInRange s e r = true) :
    filtered_data D ⟨s, e, ["All"], ["All"], ["All"], ["All"]⟩ = D := by
  rw [filtered_data_eq_filter, List.filter_eq_self]
  intro r hr
  unfold recordPred dimOK
  simp [hdates r hr]

/-- Witness for the amended C6 at a concrete dataset whose only record is
dated inside the range. -/
theorem full_range_identity_witness :
    filtered_data [r00] ⟨0, 0, ["All"], ["All"], ["All"], ["All"]⟩ = [r00] :=
  full_range_identity [r00] 0 0 (by decide)

/-! ### Grouped aggregation, top-N, conservation -/

/-- Code-point-wise lexicographic comparison of character lists, the
string order pandas uses when sorting group keys. -/
def charListLeB : List Char → List Char → Bool
  | [], _ => true
  | _ :: _, [] => false
  | a :: as, b :: bs =>
    if a.val.toNat < b.val.toNat then true
    else if b.val.toNat < a.val.toNat then false
    else charListLeB as bs

/-- Lexicographic string order (as a proposition) for the group-key sort. -/
def strLe (a b : String) : Prop := charListLeB a.data b.data = true

instance : DecidableRel strLe :=
  fun a b => inferInstanceAs (Decidable (charListLeB a.data b.data = true))

/-- pandas `df.groupby(col)[sumCol].sum()` with the default `sort=True`:
one entry per distinct key value, keys sorted ascending, each sum
skipping missing values. -/
def pandasGroupSum (key : SalesRecord → String) (f : SalesRecord → Option ℚ)
    (v : List SalesRecord) : List (String × ℚ) :=
  (List.insertionSort strLe ((v.map key).dedup)).map
    (fun k => (k, sumOpt f (v.filter (fun r => key r == k))))

/-- Models `filtered_data.groupby("Platform")['Revenue'].sum()`
(`app.py` line 99, `fashion_dashboard.py` line 96). -/
def rev_platform (v : List SalesRecord) : List (String × ℚ) :=
  pandasGroupSum (fun r => r.Platform) (fun r => r.Revenue) v

/-- The descending-by-sum comparison used to model
`sort_values(ascending=False)` on a `(key, sum)` sequence. -/
def revDesc (p q : String × ℚ) : Prop := q.2 ≤ p.2

instance : DecidableRel revDesc :=
  fun p q => inferInstanceAs (Decidable (q.2 ≤ p.2))

instance : IsTotal (String × ℚ) revDesc :=
  ⟨fun a b => le_total b.2 a.2⟩

instance : IsTrans (String × ℚ) revDesc :=
  ⟨fun _ _ _ h1 h2 => le_trans h2 h1⟩

/-- Models `filtered_data.groupby('Product')['Revenue'].sum().sort_values(ascending=False).head(n)`
(`app.py` line 111 with `n = 5`, `fashion_dashboard.py` line 106 with
`n = top_n`). -/
def top_products (v : List SalesRecord) (n : Nat) : List (String × ℚ) :=
  (List.insertionSort revDesc
    (pandasGroupSum (fun r => r.Product) (fun r => r.Revenue) v)).take n

lemma sum_map_add {α : Type} (K : List α) (a b : α → ℚ) :
    (K.map (fun k => a k + b k)).sum = (K.map a).sum + (K.map b).sum := by
  induction K with
  | nil => simp
  | cons k K ih => simp only [List.map_cons, List.sum_cons, ih]; ring

lemma sum_ite_unique (K : List String) (c : String) (x : ℚ)
    (hnd : K.Nodup) (hc : c ∈ K) :
    (K.map (fun k => if c == k then x else 0)).sum = x := by
  induction K with
  | nil => cases hc
  | cons k K ih =>
    simp only [List.map_cons, List.sum_cons]
    rcases List.mem_cons.mp hc with h | h
    · subst h
      have hnotin : c ∉ K := (List.nodup_cons.mp hnd).1
      have hz : K.map (fun k => if c == k then x else (0 : ℚ)) =
          K.map (fun _ => (0 : ℚ)) := by
        apply List.map_congr_left
        intro k hk
        have hne : (c == k) = false :=
          beq_eq_false_iff_ne.mpr (fun he => hnotin (he ▸ hk))
        simp [hne]
      rw [hz]
      simp
    · have hck : (c == k) = false :=
        beq_eq_false_iff_ne.mpr (fun he => (List.nodup_cons.mp hnd).1 (he ▸ h))
      have hih := ih (List.nodup_cons.mp hnd).2 h
      rw [hck]
      simpa using hih

/-- Splitting the NaN-skipping sum over the records of a list grouped by
any duplicate-free covering key list recovers the total sum. -/
lemma sum_groups (key : SalesRecord → String) (f : SalesRecord → Option ℚ)
    (v : List SalesRecord) (K : List String) (hnd : K.Nodup)
    (hcov : ∀ r ∈ v, key r ∈ K) :
    (K.map (fun k => sumOpt f (v.filter (fun r => key r == k)))).sum = sumOpt f v := by
  induction v with
  | nil => simp [sumOpt]
  | cons r v ih =>
    have hcov' : ∀ r' ∈ v, key r' ∈ K := fun r' h => hcov r' (List.mem_cons_of_mem _ h)
    have hr : key r ∈ K := hcov r (List.mem_cons_self _ _)
    have hsplit : ∀ k, sumOpt f ((r :: v).filter (fun r' => key r' == k)) =
        (if key r == k then (f r).getD 0 else 0) +
          sumOpt f (v.filter (fun r' => key r' == k)) := by
      intro k
      rw [List.filter_cons]
      by_cases h : (key r == k) = true
      · simp [h, sumOpt]
      · simp [h, sumOpt]
    calc (K.map (fun k => sumOpt f ((r :: v).filter (fun r' => key r' == k)))).sum
        = (K.map (fun k => (if key r == k then (f r).getD 0 else 0) +
            sumOpt f (v.filter (fun r' => key r' == k)))).sum := by
          exact congrArg List.sum (List.map_congr_left (fun k _ => hsplit k))
      _ = (K.map (fun k => if key r == k then (f r).getD 0 else 0)).sum +
            (K.map (fun k => sumOpt f (v.filter (fun r' => key r' == k)))).sum :=
          sum_map_add K _ _
      _ = (f r).getD 0 + sumOpt f v := by
          rw [sum_ite_unique K (key r) _ hnd hr, ih hcov']
      _ = sumOpt f (r :: v) := by simp [sumOpt]

/-- C8: for every view, every group-by key and every sum field without
missing values on the view, the sum of the per-group sums produced by
the grouped aggregation equals the total sum of the field over the whole
view, and each record contributes to exactly one group: the group keys
are duplicate-free and every record's key value is among them. -/
theorem pandasGroupSum_conservation (key : SalesRecord → String)
    (f : SalesRecord → Option ℚ) (v : List SalesRecord)
    (hf : ∀ r ∈ v, (f r).isSome = true) :
    ((pandasGroupSum key f v).map Prod.snd).sum = sumOpt f v ∧
      ((pandasGroupSum key f v).map Prod.fst).Nodup ∧
      ∀ r ∈ v, key r ∈ (pandasGroupSum key f v).map Prod.fst := by
  have hperm : List.Perm
      (List.insertionSort strLe ((v.map key).dedup))
      ((v.map key).dedup) :=
    List.perm_insertionSort _ _
  have hcov : ∀ r ∈ v, key r ∈ (v.map key).dedup := by
    intro r hrm
    exact List.mem_dedup.mpr (List.mem_map.mpr ⟨r, hrm, rfl⟩)
  have hid : ((List.insertionSort strLe ((v.map key).dedup)).map
      (Prod.fst ∘ fun k => (k, sumOpt f (v.filter (fun r => key r == k))))) =
      List.insertionSort strLe ((v.map key).dedup) := by
    have hcompf : (Prod.fst ∘ fun k => (k, sumOpt f (v.filter (fun r => key r == k)))) =
        fun k : String => k := rfl
    rw [hcompf]
    exact List.map_id' _
  refine ⟨?_, ?_, ?_⟩
  · unfold pandasGroupSum
    rw [List.map_map]
    have hcomp : (Prod.snd ∘ fun k => (k, sumOpt f (v.filter (fun r => key r == k)))) =
        fun k => sumOpt f (v.filter (fun r => key r == k)) := rfl
    have hsum := (hperm.map (fun k => sumOpt f (v.filter (fun r => key r == k)))).sum_eq
    rw [hcomp, hsum]
    exact sum_groups key f v _ (List.nodup_dedup _) hcov
  · unfold pandasGroupSum
    rw [List.map_map, hid]
    exact hperm.nodup_iff.mpr (List.nodup_dedup _)
  · intro r hrm
    unfold pandasGroupSum
    rw [List.map_map, hid]
    exact hperm.mem_iff.mpr (hcov r hrm)

/-- The concrete two-platform view instantiating the conservation law. -/
def vCons : List SalesRecord :=
  [r00, { r00 with Platform := "Flipkart", Revenue := some 50 }]

/-- Witness for C8 at the platform/revenue instance on a concrete
two-platform view with no missing revenue values. -/
theorem pandasGroupSum_conservation_witness :
    ((pandasGroupSum (fun r => r.Platform) (fun r => r.Revenue) vCons).map Prod.snd).sum =
        sumOpt (fun r => r.Revenue) vCons ∧
      ((pandasGroupSum (fun r => r.Platform) (fun r => r.Revenue) vCons).map Prod.fst).Nodup ∧
      ∀ r ∈ vCons, r.Platform ∈
        (pandasGroupSum (fun r => r.Platform) (fun r => r.Revenue) vCons).map Prod.fst :=
  pandasGroupSum_conservation (fun r => r.Platform) (fun r => r.Revenue) vCons (by decide)

/-- The product-revenue group sums of a view (the full `groupSum` result
that `top_products` truncates). -/
def product_groupSum (v : List SalesRecord) : List (String × ℚ) :=
  pandasGroupSum (fun r => r.Product) (fun r => r.Revenue) v

/-- The two-record view whose two products tie on revenue but are first
encountered in the order `B`, `A`. -/
def vTie : List SalesRecord :=
  [{ r00 with Product := "B", Revenue := some 1 },
   { r00 with Product := "A", SKU := "S2", Revenue := some 1 }]

/-- C5, counterexample: on a view whose products are first encountered in
the order `B`, `A` and tie on revenue, `top_products` returns the groups
in ascending key order `A`, `B` — pandas `groupby` (default `sort=True`)
sorts the group keys before the descending sort by sum, so equal-sum
groups do not appear in the order their keys were first encountered in
the input sequence. -/
theorem top_products_tie_cex :
    (vTie.map (fun r => r.Product)).dedup = ["B", "A"] ∧
      top_products vTie 2 = [("A", 1), ("B", 1)] ∧
      top_products vTie 2 ≠ [("B", 1), ("A", 1)] := by
  have hkeys : (vTie.map (fun r => r.Product)).dedup = ["B", "A"] := by decide
  have hsortK : List.insertionSort strLe ["B", "A"] = ["A", "B"] := by decide
  have hg : pandasGroupSum (fun r => r.Product) (fun r => r.Revenue) vTie =
      [("A", 1), ("B", 1)] := by
    unfold pandasGroupSum
    rw [hkeys, hsortK]
    simp +decide [sumOpt, vTie, r00]
  have htop : top_products vTie 2 = [("A", 1), ("B", 1)] := by
    unfold top_products
    rw [hg]
    norm_num [revDesc]
  refine ⟨hkeys, htop, ?_⟩
  rw [htop]
  decide

/-- C5, amended: for every view and every `n ≥ 1`, `top_products` returns a
sequence of length exactly `min n (number of distinct product keys)`,
whose sums are in non-increasing order and whose `(key, sum)` pairs all
occur in the full group-sum result; equal-sum groups appear in the
key-sorted order produced by `groupby`, not in input-encounter order (see
the counterexample). -/
theorem top_products_spec (v : List SalesRecord) (n : Nat) (hn : 1 ≤ n) :
    (top_products v n).length = min n ((v.map (fun r => r.Product)).dedup).length ∧
      List.Pairwise revDesc (top_products v n) ∧
      ∀ p ∈ top_products v n, p ∈ product_groupSum v := by
  refine ⟨?_, ?_, ?_⟩
  · unfold top_products pandasGroupSum
    rw [List.length_take, List.length_insertionSort, List.length_map,
      List.length_insertionSort]
  · exact List.Pairwise.sublist (List.take_sublist n _)
      (List.sorted_insertionSort revDesc _)
  · intro p hp
    have hmem : p ∈ List.insertionSort revDesc
        (pandasGroupSum (fun r => r.Product) (fun r => r.Revenue) v) :=
      List.Sublist.subset (List.take_sublist n _) hp
    exact (List.mem_insertionSort revDesc).mp hmem

/-- Witness for the amended C5 at the concrete tie view with `n = 2`. -/
theorem top_products_spec_witness :
    (top_products vTie 2).length = min 2 ((vTie.map (fun r => r.Product)).dedup).length ∧
      List.Pairwise revDesc (top_products vTie 2) ∧
      ∀ p ∈ top_products vTie 2, p ∈ product_groupSum vTie :=
  top_products_spec vTie 2 (by decide)

/-! ### Trend, cross-tabulation, and the pipeline as one pure function -/

/-- Models `filtered_data.groupby('Date')['Revenue'].sum()` (`app.py` line 125):
one entry per distinct present date, chronologically ordered; pandas
`groupby` drops rows whose group key is missing (`NaT`). -/
def rev_trend (v : List SalesRecord) : List (Int × ℚ) :=
  (List.insertionSort (fun a b : Int => a ≤ b) ((v.filterMap (fun r => r.Date)).dedup)).map
    (fun d => (d, sumOpt (fun r => r.Revenue) (v.filter (fun r => r.Date == some d))))

/-- Lexicographic order on (platform, SKU) pairs, as pandas sorts a
two-column group key. -/
def pairLexB (a b : String × String) : Bool :=
  if a.1 = b.1 then charListLeB a.2.data b.2.data else charListLeB a.1.data b.1.data

/-- Restates `pairLexB` as a proposition, for the two-column group-key sort. -/
def pairLex (a b : String × String) : Prop := pairLexB a b = true

instance : DecidableRel pairLex :=
  fun a b => inferInstanceAs (Decidable (pairLexB a b = true))

/-- Models `filtered_data.groupby(['Platform','SKU']).agg(Revenue sum, Quantity sum)`
(`app.py` line 130): one row per distinct (platform, SKU) pair with the
two sums computed independently. -/
def bubble_data (v : List SalesRecord) : List ((String × String) × ℚ × ℚ) :=
  (List.insertionSort pairLex ((v.map (fun r => (r.Platform, r.SKU))).dedup)).map
    (fun k => (k,
      sumOpt (fun r => r.Revenue) (v.filter (fun r => decide ((r.Platform, r.SKU) = k))),
      sumOpt (fun r => r.Quantity) (v.filter (fun r => decide ((r.Platform, r.SKU) = k)))))

/-- One full run of the `app.py` pipeline on a dataset and a raw filter,
with the dataset threaded through explicitly: the script works on
`data.copy()` and never rebinds `data`, so the run returns the source
dataset alongside the derived outputs. -/
def appRun (D : List SalesRecord) (F : RawFilter) :
    (Option KPISet × List (String × ℚ) × List (String × ℚ) × List (Int × ℚ) ×
      List ((String × String) × ℚ × ℚ)) × List SalesRecord :=
  let data := D
  let fd := filtered_data data F
  ((appOutput data F, rev_platform fd, top_products fd 5, rev_trend fd, bubble_data fd),
    data)

/-- C9: the pipeline run — filtering, KPI computation, grouped
aggregation, top-N, trend and cross-tabulation — is a pure function of
the dataset and the filter selections: two invocations with identical
inputs produce identical outputs, and the source dataset comes back from
a run unchanged (the code operates on a copy and only derives new
tables). -/
theorem appRun_deterministic (D : List SalesRecord) (F : RawFilter) :
    appRun D F = appRun D F ∧ (appRun D F).2 = D :=
  ⟨rfl, rfl⟩

/-! ### Loyal and one-time customer exports -/

/-- Distinct order count of one customer of the view
(`Order_ID : 'nunique'` inside the per-customer groupby). -/
def custNUnique (v : List SalesRecord) (c : String) : Nat :=
  nunique ((v.filter (fun r => r.Customer_ID == c)).map (fun r => r.Order_ID))

/-- Revenue sum of one customer of the view
(`Revenue : 'sum'` inside the per-customer groupby). -/
def custRevenue (v : List SalesRecord) (c : String) : ℚ :=
  sumOpt (fun r => r.Revenue) (v.filter (fun r => r.Customer_ID == c))

/-- Models `filtered_data.groupby('Customer_ID').agg(Order_ID nunique, Revenue sum)`
(`fashion_dashboard.py` lines 161 and 164). -/
def customer_orders (v : List SalesRecord) : List (String × Nat × ℚ) :=
  (List.insertionSort strLe ((v.map (fun r => r.Customer_ID)).dedup)).map
    (fun c => (c, custNUnique v c, custRevenue v c))

/-- Models `df_loyal = df_loyal[df_loyal['Order_ID'] > 1]`
(`fashion_dashboard.py` line 162). -/
def df_loyal (v : List SalesRecord) : List (String × Nat × ℚ) :=
  (customer_orders v).filter (fun t => decide (1 < t.2.1))

/-- Models `df_one_timer = df_one_timer[df_one_timer['Order_ID'] == 1]`
(`fashion_dashboard.py` line 165). -/
def df_one_timer (v : List SalesRecord) : List (String × Nat × ℚ) :=
  (customer_orders v).filter (fun t => decide (t.2.1 = 1))

lemma mem_fst_customer_filter (v : List SalesRecord)
    (p : String × Nat × ℚ → Bool) (c : String) :
    c ∈ ((customer_orders v).filter p).map Prod.fst ↔
      c ∈ (v.map (fun r => r.Customer_ID)).dedup ∧
        p (c, custNUnique v c, custRevenue v c) = true := by
  unfold customer_orders
  constructor
  · intro h
    obtain ⟨t, ht, htc⟩ := List.mem_map.mp h
    obtain ⟨htm, hpt⟩ := List.mem_filter.mp ht
    obtain ⟨k, hk, hgk⟩ := List.mem_map.mp htm
    have hkc : k = c := by rw [← hgk] at htc; exact htc
    subst hkc
    rw [← hgk] at hpt
    exact ⟨(List.mem_insertionSort strLe).mp hk, hpt⟩
  · rintro ⟨hc, hp⟩
    refine List.mem_map.mpr ⟨(c, custNUnique v c, custRevenue v c), ?_, rfl⟩
    refine List.mem_filter.mpr ⟨?_, hp⟩
    exact List.mem_map.mpr ⟨c, (List.mem_insertionSort strLe).mpr hc, rfl⟩

lemma custNUnique_pos (v : List SalesRecord) (c : String)
    (hc : c ∈ (v.map (fun r => r.Customer_ID)).dedup) : 1 ≤ custNUnique v c := by
  obtain ⟨r, hr, hrc⟩ := List.mem_map.mp (List.mem_dedup.mp hc)
  have hrf : r ∈ v.filter (fun r' => r'.Customer_ID == c) :=
    List.mem_filter.mpr ⟨hr, by simp [hrc]⟩
  have h2 : r.Order_ID ∈
      (v.filter (fun r' => r'.Customer_ID == c)).map (fun r' => r'.Order_ID) :=
    List.mem_map.mpr ⟨r, hrf, rfl⟩
  have h3 := List.mem_dedup.mpr h2
  unfold custNUnique nunique
  exact List.length_pos.mpr (List.ne_nil_of_mem h3)

/-- C10: for every view, the loyal-customer export (customers with more
than one distinct order identifier) and the one-timer export (customers
with exactly one) are disjoint, and together they cover exactly the
customers appearing in the view — every customer of the view falls in
exactly one of the two exports. -/
theorem loyal_one_timer_partition (v : List SalesRecord) (c : String) :
    ¬(c ∈ (df_loyal v).map Prod.fst ∧ c ∈ (df_one_timer v).map Prod.fst) ∧
      ((c ∈ (df_loyal v).map Prod.fst ∨ c ∈ (df_one_timer v).map Prod.fst) ↔
        c ∈ v.map (fun r => r.Customer_ID)) := by
  have hl := mem_fst_customer_filter v (fun t => decide (1 < t.2.1)) c
  have ho := mem_fst_customer_filter v (fun t => decide (t.2.1 = 1)) c
  constructor
  · rintro ⟨h1, h2⟩
    have hl' := (hl.mp h1).2
    have ho' := (ho.mp h2).2
    simp only [decide_eq_true_eq] at hl' ho'
    omega
  · constructor
    · rintro (h | h)
      · exact List.mem_dedup.mp (hl.mp h).1
      · exact List.mem_dedup.mp (ho.mp h).1
    · intro h
      have hc : c ∈ (v.map (fun r => r.Customer_ID)).dedup := List.mem_dedup.mpr h
      have hpos := custNUnique_pos v c hc
      by_cases h1 : custNUnique v c = 1
      · right
        exact ho.mpr ⟨hc, by simp [h1]⟩
      · left
        refine hl.mpr ⟨hc, ?_⟩
        simp only [decide_eq_true_eq]
        omega
